import Mathlib

/-
Verification development for the EasyCSS Enhanced framework (src/Easy.js).

The file shallowly embeds the parts of the program that the specification
talks about:

* the document-scoped event bus: the methods on / off / emit (lines 943-959)
  are thin wrappers over the host EventTarget operations
  document.addEventListener / removeEventListener / dispatchEvent, so the
  embedding models those operations with their standard WHATWG semantics
  (duplicate registrations are ignored, dispatch iterates over a clone of the
  listener list taken when dispatch starts, a listener removed during the
  dispatch before its turn is skipped, an exception thrown by a listener is
  reported and does not stop the dispatch);
* the detail object construction of emit, a JavaScript object spread followed
  by a timestamp assignment;
* the widget activation passes (initModals and the sibling initX methods),
  which re-query the document and attach a freshly allocated closure per
  matched element on every pass, with no per-element exception handling;
* the theme preference storage (localStorage, key easycss-theme);
* the showToast configuration defaults and auto-dismiss scheduling;
* the DOM-structure guards of openModal, initDropdowns and the navbar toggle
  click handler.

Machine integers do not occur; JavaScript numbers used here (timestamps,
durations) are modelled as Int, DOM and closure identities as Nat.
-/

namespace EasyCSS

/-! ## Association lists: JavaScript object projections

A JavaScript object literal, as used for event payloads and for the
localStorage table, is modelled as an association list with string keys and
unique key occurrences (object keys are unique).  Property read and property
assignment follow the JavaScript semantics: assignment overwrites the value
in place when the key is present and appends the key otherwise. -/

def lookupAssoc {α : Type} : List (String × α) → String → Option α
  | [], _ => none
  | p :: rest, k => if p.1 == k then some p.2 else lookupAssoc rest k

def setAssoc {α : Type} : List (String × α) → String → α → List (String × α)
  | [], k, v => [(k, v)]
  | p :: rest, k, v => if p.1 == k then (k, v) :: rest else p :: setAssoc rest k v

theorem lookupAssoc_setAssoc_self {α : Type} (l : List (String × α)) (k : String) (v : α) :
    lookupAssoc (setAssoc l k v) k = some v := by
  induction l with
  | nil => simp [setAssoc, lookupAssoc]
  | cons p rest ih =>
    by_cases hp : p.1 = k
    · simp [setAssoc, lookupAssoc, hp]
    · simp [setAssoc, lookupAssoc, hp, ih]

theorem lookupAssoc_setAssoc_other {α : Type} (l : List (String × α)) (k : String) (v : α)
    (k2 : String) (h : k2 ≠ k) :
    lookupAssoc (setAssoc l k v) k2 = lookupAssoc l k2 := by
  induction l with
  | nil => simp [setAssoc, lookupAssoc, Ne.symm h]
  | cons p rest ih =>
    by_cases hp : p.1 = k
    · simp [setAssoc, lookupAssoc, hp, Ne.symm h]
    · by_cases hq : p.1 = k2
      · simp [setAssoc, lookupAssoc, hp, hq, h]
      · simp [setAssoc, lookupAssoc, hp, hq, ih]

/-! ## Event payloads

Payload values carried by bus events are numbers, strings or references to
host objects (the framework instance, DOM nodes); only identity of the
references matters to the claims. -/

inductive JVal where
  | num (n : Int)
  | str (s : String)
  | ref (id : Nat)
deriving DecidableEq, Repr

abbrev Payload := List (String × JVal)

/-- The detail object built by emit (src/Easy.js line 955):
the spread of the caller data followed by the assignment of the generated
timestamp, so a caller-supplied timestamp key is overwritten in place and
otherwise the timestamp key is appended. -/
def mkDetail (data : Payload) (now : Int) : Payload :=
  setAssoc data "timestamp" (JVal.num now)

theorem mkDetail_timestamp (data : Payload) (now : Int) :
    lookupAssoc (mkDetail data now) "timestamp" = some (JVal.num now) :=
  lookupAssoc_setAssoc_self data "timestamp" (JVal.num now)

theorem mkDetail_other (data : Payload) (now : Int) (k : String) (h : k ≠ "timestamp") :
    lookupAssoc (mkDetail data now) k = lookupAssoc data k :=
  lookupAssoc_setAssoc_other data "timestamp" (JVal.num now) k h

/-! ## Theme preference storage

The constructor (line 8) reads localStorage.getItem with key easycss-theme
and applies the JavaScript or-else operator, which treats null and the empty
string as absent; setTheme (line 74) writes the same key.  localStorage is
modelled as a string association list. -/

abbrev Store := List (String × String)

def getItem (st : Store) (k : String) : Option String := lookupAssoc st k

def setItem (st : Store) (k : String) (v : String) : Store := setAssoc st k v

def themeKey : String := "easycss-theme"

/-- Line 8: this.theme = localStorage.getItem(easycss-theme) || light.
The JavaScript or-else makes both a missing key and an empty string fall
back to light. -/
def startupTheme (st : Store) : String :=
  match getItem st themeKey with
  | none => "light"
  | some s => if s = "" then "light" else s

/-- The storage effect of setTheme (line 74): write the new theme under the
same single key the startup read uses. -/
def setThemeStore (st : Store) (theme : String) : Store :=
  setItem st themeKey theme

/-- toggleTheme (lines 66-69) flips dark to light and anything else to dark,
then stores through setTheme. -/
def toggleThemeStore (st : Store) (current : String) : Store :=
  setThemeStore st (if current = "dark" then "light" else "dark")

/-! ## Toast configuration (showToast, lines 538-590)

The destructuring on line 539 supplies the defaults: type info, duration
5000, persistent false.  Line 582 schedules the auto-dismiss timer exactly
when the toast is not persistent and the duration is positive.  Line 542
returns early when no toast container exists. -/

structure ToastConfig where
  type? : Option String := none
  title? : Option String := none
  message? : Option String := none
  duration? : Option Int := none
  persistent? : Option Bool := none
deriving DecidableEq, Repr

structure ToastResult where
  toastType : String
  autoDismissAfter : Option Int
deriving DecidableEq, Repr

def showToast (containerPresent : Bool) (config : ToastConfig) : Option ToastResult :=
  if containerPresent then
    some { toastType := config.type?.getD "info"
         , autoDismissAfter :=
             if config.persistent?.getD false = false ∧ 0 < config.duration?.getD 5000 then
               some (config.duration?.getD 5000)
             else none }
  else none

/-! ## DOM elements and the activation pass

Elements carry their attribute list; querySelectorAll over an attribute
selector is a filter over document order. -/

structure DomElem where
  elemId : Nat
  attrs : List (String × String)
deriving DecidableEq, Repr

def hasAttr (el : DomElem) (name : String) : Bool :=
  el.attrs.any (fun p => p.1 == name)

/-- The page state relevant to re-activation: the document tree, the click
listeners attached so far as (element, closure identity) pairs, and a
counter supplying the identity of the next arrow-function closure the
source allocates. -/
structure PageState where
  elems : List DomElem
  clickListeners : List (Nat × Nat)
  nextClosure : Nat
deriving DecidableEq, Repr

/-- One run of the trigger loop of initModals (src/Easy.js lines 89-97):
document.querySelectorAll over the data-modal-trigger attribute, then for
each match trigger.addEventListener with an arrow function allocated inside
the loop.  Every run allocates fresh closures, so the EventTarget duplicate
check never fires and each pass appends one more click listener per matched
element. -/
def initModalsPass (p : PageState) : PageState :=
  List.foldl
    (fun st el =>
      { st with clickListeners := st.clickListeners ++ [(el.elemId, st.nextClosure)]
              , nextClosure := st.nextClosure + 1 })
    p
    (p.elems.filter (fun el => hasAttr el "data-modal-trigger"))

/-! ## Per-element bind loop without exception handling

Every initX method iterates its matches with Array.prototype.forEach and the
source contains no try/catch, so an exception thrown by the per-element body
aborts the iteration at that element and propagates to the caller.  The
per-element body is abstracted as a fallible bind callback; the pass returns
the identifiers bound before the throw together with the propagated error,
mirroring the loops of initToasts (lines 520-525) and initDropdowns (lines
183-208). -/

def bindPass (bind : Nat → Except String Unit) : List Nat → List Nat × Option String
  | [] => ([], none)
  | el :: rest =>
    match bind el with
    | Except.ok _ => (el :: (bindPass bind rest).1, (bindPass bind rest).2)
    | Except.error msg => ([], some msg)

/-! ## Widget guards against missing DOM structure -/

/-- The navbar seen from a toggle: whether querySelector for .navbar-nav
finds a nav, and whether that nav currently has the active class. -/
structure NavbarEl where
  hasNav : Bool
  navActive : Bool
deriving DecidableEq, Repr

inductive NavToggleOutcome where
  | noop
  | toggled (nowActive : Bool)
deriving DecidableEq, Repr

/-- The click handler installed by initNavbarToggle (lines 607-622):
navbar := toggle.closest(.navbar) may be null, and the very next line reads
navbar.querySelector, which throws a TypeError on null; when the navbar
exists but has no .navbar-nav child the handler takes the if-guard and
no-ops; otherwise it toggles the active class. -/
def navbarToggleClick (closestNavbar : Option NavbarEl) : Except String NavToggleOutcome :=
  match closestNavbar with
  | none => Except.error "TypeError"
  | some nb => if nb.hasNav then Except.ok (NavToggleOutcome.toggled (!nb.navActive)) else Except.ok NavToggleOutcome.noop

/-- openModal (lines 120-139): document.querySelector over the data-modal
attribute value; when no element matches, the function returns before any
effect (line 122), so the result is an optional opened element and the
function is total. -/
def openModal (doc : List DomElem) (modalId : String) : Option Nat :=
  (doc.find? (fun el => el.attrs.any (fun p => p.1 == "data-modal" && p.2 == modalId))).map
    (fun el => el.elemId)

/-- The per-dropdown guard of initDropdowns (line 187): binding proceeds only
when both the trigger child and the menu child exist; otherwise the body
returns without effect. -/
def initDropdownOne (hasTrigger hasMenu : Bool) : Bool :=
  hasTrigger && hasMenu

/-! ## The document-scoped event bus

on / off / emit (src/Easy.js lines 943-959) delegate to the document
EventTarget.  A registration is identified by the pair of event name and
callback identity; each accepted registration also receives a unique
registration id so that the removed-listener check of dispatch can be
expressed.  Handler bodies are modelled as small scripts of bus actions so
that subscribing, unsubscribing and throwing during a dispatch are
expressible; the script of each callback identity is supplied by an
environment parameter. -/

structure Listener where
  regId : Nat
  event : String
  cb : Nat
deriving DecidableEq, Repr

inductive Action where
  | add (event : String) (cb : Nat)
  | remove (event : String) (cb : Nat)
  | throwErr
deriving DecidableEq, Repr

structure BusState where
  listeners : List Listener
  nextReg : Nat
  delivered : List (Nat × String × Payload)
  reported : List Nat
deriving DecidableEq, Repr

/-- document.addEventListener: a registration whose event name and callback
already occur in the listener list is discarded (WHATWG duplicate check);
otherwise it is appended, preserving registration order. -/
def addEventListener (s : BusState) (e : String) (c : Nat) : BusState :=
  if s.listeners.any (fun l => l.event == e && l.cb == c) then s
  else { s with listeners := s.listeners ++ [⟨s.nextReg, e, c⟩], nextReg := s.nextReg + 1 }

def removeFirst : List Listener → String → Nat → List Listener
  | [], _, _ => []
  | l :: rest, e, c => if l.event == e && l.cb == c then rest else l :: removeFirst rest e c

/-- document.removeEventListener: remove the first (because of the duplicate
check, the only) registration with this event name and callback; absent
registrations are ignored without error. -/
def removeEventListener (s : BusState) (e : String) (c : Nat) : BusState :=
  { s with listeners := removeFirst s.listeners e c }

/-- Run the body of one handler.  An exception aborts the rest of that body
and is reported by the dispatch machinery (the browser reports listener
exceptions instead of propagating them out of dispatchEvent). -/
def runActions (cb : Nat) : List Action → BusState → BusState
  | [], s => s
  | Action.add e c :: rest, s => runActions cb rest (addEventListener s e c)
  | Action.remove e c :: rest, s => runActions cb rest (removeEventListener s e c)
  | Action.throwErr :: _, s => { s with reported := s.reported ++ [cb] }

/-- Invoke one listener: the invocation itself is the delivery of the event
to that handler, recorded in the delivered log, then the handler body runs. -/
def runHandler (env : Nat → List Action) (cb : Nat) (e : String) (detail : Payload)
    (s : BusState) : BusState :=
  runActions cb (env cb)
    { s with delivered := s.delivered ++ [(cb, e, detail)] }

def hasRemove : List Action → Bool
  | [] => false
  | Action.remove _ _ :: _ => true
  | _ :: rest => hasRemove rest

/-- The invocation loop of document.dispatchEvent over the clone of the
listener list taken when the dispatch started: a listener whose registration
has been removed in the meantime is skipped (the WHATWG removed flag); a
listener registered during the dispatch is not in the clone and is not
invoked. -/
def dispatchSnapshot (env : Nat → List Action) (e : String) (detail : Payload) :
    List Listener → BusState → BusState
  | [], s => s
  | l :: rest, s =>
    if s.listeners.any (fun m => m.regId == l.regId) then
      dispatchSnapshot env e detail rest (runHandler env l.cb e detail s)
    else
      dispatchSnapshot env e detail rest s

def dispatchEvent (env : Nat → List Action) (s : BusState) (e : String) (detail : Payload) :
    BusState :=
  dispatchSnapshot env e detail (s.listeners.filter (fun l => l.event == e)) s

/-- The method named on in the source (lines 943-946), document.addEventListener;
the identifier on is reserved in Lean, hence the busOn name. -/
def busOn (s : BusState) (e : String) (c : Nat) : BusState :=
  addEventListener s e c

/-- The method named off in the source (lines 948-951), document.removeEventListener. -/
def busOff (s : BusState) (e : String) (c : Nat) : BusState :=
  removeEventListener s e c

/-- emit (lines 953-959): build the CustomEvent detail from the caller data
and the generated timestamp, then dispatch through the document. -/
def emit (env : Nat → List Action) (s : BusState) (e : String) (data : Payload) (now : Int) :
    BusState :=
  dispatchEvent env s e (mkDetail data now)

/-- The value returned by on: the source returns this for chaining, the one
framework instance, the same value whatever was registered. -/
inductive OnResult where
  | chainedSelf
deriving DecidableEq, Repr

def onWithRet (s : BusState) (e : String) (c : Nat) : BusState × OnResult :=
  (addEventListener s e c, OnResult.chainedSelf)

/-- The member names of class EasyCSSEnhanced, transcribed from src/Easy.js;
the interface of the value on returns.  No cancel member exists. -/
def easyCSSEnhancedMethods : List String :=
  ["constructor", "init", "initializeComponents", "initTheme", "toggleTheme", "setTheme",
   "updateThemeIcon", "initModals", "openModal", "closeModal", "trapFocus", "initDropdowns",
   "toggleDropdown", "openDropdown", "closeDropdown", "positionDropdown",
   "handleDropdownKeyboard", "initTabs", "switchTab", "handleTabKeyboard", "initAccordions",
   "toggleAccordionItem", "handleAccordionKeyboard", "initTooltips", "positionTooltip",
   "initToasts", "showToast", "hideToast", "initNavbarToggle", "initSmoothScroll",
   "initAnimationTriggers", "initLoadingStates", "initAlertClose", "initLanguageToggle",
   "initAccessibility", "createSkipLink", "initFocusManagement", "initKeyboardNavigation",
   "initScreenReaderSupport", "announceToScreenReader", "initPerformanceOptimizations",
   "handleResize", "initLazyLoading", "prefetchResources", "debounce", "throttle", "on",
   "off", "emit", "registerComponent", "getComponent", "destroy", "showModal", "hideModal",
   "showDropdown", "hideDropdown", "notify", "setDirection", "getTheme", "getDirection"]

/-! ### Bus lemmas -/

theorem addEventListener_delivered (s : BusState) (e : String) (c : Nat) :
    (addEventListener s e c).delivered = s.delivered := by
  unfold addEventListener
  split <;> rfl

theorem addEventListener_mem (s : BusState) (e : String) (c : Nat) (l : Listener)
    (h : l ∈ s.listeners) : l ∈ (addEventListener s e c).listeners := by
  unfold addEventListener
  split
  · exact h
  · exact List.mem_append_left _ h

theorem runActions_delivered (cb : Nat) (acts : List Action) :
    ∀ s : BusState, (runActions cb acts s).delivered = s.delivered := by
  induction acts with
  | nil => intro s; rfl
  | cons a rest ih =>
    intro s
    cases a with
    | add e c => rw [runActions, ih, addEventListener_delivered]
    | remove e c => rw [runActions, ih]; rfl
    | throwErr => rfl

theorem runActions_mem (cb : Nat) (acts : List Action) :
    ∀ (s : BusState) (l : Listener), hasRemove acts = false → l ∈ s.listeners →
      l ∈ (runActions cb acts s).listeners := by
  induction acts with
  | nil => intro s l _ h; exact h
  | cons a rest ih =>
    intro s l hnr h
    cases a with
    | add e c =>
      exact ih _ _ (by simpa [hasRemove] using hnr) (addEventListener_mem _ _ _ _ h)
    | remove e c => simp [hasRemove] at hnr
    | throwErr => exact h

theorem runHandler_delivered (env : Nat → List Action) (cb : Nat) (e : String)
    (detail : Payload) (s : BusState) :
    (runHandler env cb e detail s).delivered = s.delivered ++ [(cb, e, detail)] := by
  unfold runHandler
  rw [runActions_delivered]

theorem runHandler_mem (env : Nat → List Action) (cb : Nat) (e : String) (detail : Payload)
    (s : BusState) (l : Listener) (hnr : hasRemove (env cb) = false) (h : l ∈ s.listeners) :
    l ∈ (runHandler env cb e detail s).listeners := by
  unfold runHandler
  exact runActions_mem _ _ _ _ hnr h

/-- Dispatch over a snapshot delivers to exactly the snapshot, in snapshot
order, provided no invoked handler unsubscribes anything. -/
theorem dispatchSnapshot_delivered (env : Nat → List Action) (e : String) (detail : Payload)
    (snap : List Listener) :
    ∀ s : BusState,
      (∀ l ∈ snap, hasRemove (env l.cb) = false) →
      (∀ l ∈ snap, ∃ m ∈ s.listeners, m.regId = l.regId) →
      (dispatchSnapshot env e detail snap s).delivered
        = s.delivered ++ snap.map (fun l => (l.cb, e, detail)) := by
  induction snap with
  | nil => intro s _ _; simp [dispatchSnapshot]
  | cons l rest ih =>
    intro s hnr hpres
    have hl : s.listeners.any (fun m => m.regId == l.regId) = true := by
      rcases hpres l (List.mem_cons_self _ _) with ⟨m, hm, hr⟩
      exact List.any_eq_true.mpr ⟨m, hm, by simp [hr]⟩
    rw [dispatchSnapshot, if_pos hl]
    rw [ih _ (fun x hx => hnr x (List.mem_cons_of_mem _ hx))
        (fun x hx => by
          rcases hpres x (List.mem_cons_of_mem _ hx) with ⟨m, hm, hr⟩
          exact ⟨m, runHandler_mem env l.cb e detail s m
            (hnr l (List.mem_cons_self _ _)) hm, hr⟩)]
    rw [runHandler_delivered]
    simp

/-- Every delivery added by a dispatch goes to a callback of the snapshot,
whatever the handlers do. -/
theorem dispatchSnapshot_cbs (env : Nat → List Action) (e : String) (detail : Payload)
    (snap : List Listener) :
    ∀ (s : BusState) (x : Nat × String × Payload),
      x ∈ (dispatchSnapshot env e detail snap s).delivered →
      x ∈ s.delivered ∨ x.1 ∈ snap.map (fun l => l.cb) := by
  induction snap with
  | nil => intro s x hx; exact Or.inl hx
  | cons l rest ih =>
    intro s x hx
    rw [dispatchSnapshot] at hx
    by_cases hl : s.listeners.any (fun m => m.regId == l.regId) = true
    · rw [if_pos hl] at hx
      rcases ih _ _ hx with h | h
      · rw [runHandler_delivered] at h
        rcases List.mem_append.mp h with h | h
        · exact Or.inl h
        · simp only [List.mem_singleton] at h
          subst h
          simp
      · exact Or.inr (List.mem_cons_of_mem _ h)
    · rw [if_neg hl] at hx
      rcases ih _ _ hx with h | h
      · exact Or.inl h
      · exact Or.inr (List.mem_cons_of_mem _ h)

theorem filterLenZero {α : Type} (p : α → Bool) (L : List α) (h : L.filter p = []) :
    ∀ l ∈ L, p l = false := by
  induction L with
  | nil => intro l hl; cases hl
  | cons a rest ih =>
    intro l hl
    by_cases hp : p a = true
    · rw [List.filter_cons_of_pos hp] at h
      cases h
    · rcases List.mem_cons.mp hl with rfl | hl2
      · simpa using hp
      · exact ih (by rwa [List.filter_cons_of_neg hp] at h) l hl2

theorem filterNotAll {α : Type} (p : α → Bool) (L : List α)
    (h : ∀ l ∈ L, p l = false) : L.filter (fun l => !p l) = L := by
  induction L with
  | nil => rfl
  | cons a rest ih =>
    rw [List.filter_cons_of_pos (by simp [h a (List.mem_cons_self _ _)]),
      ih (fun l hl => h l (List.mem_cons_of_mem _ hl))]

/-- With at most one matching registration present (the reachable-state
situation, by the duplicate check), removing the first match equals removing
every match. -/
theorem removeFirst_eq_filter (L : List Listener) (e : String) (c : Nat) :
    (L.filter (fun l => l.event == e && l.cb == c)).length ≤ 1 →
    removeFirst L e c = L.filter (fun l => !(l.event == e && l.cb == c)) := by
  induction L with
  | nil => intro _; rfl
  | cons l rest ih =>
    intro h
    by_cases hl : (l.event == e && l.cb == c) = true
    · rw [removeFirst, if_pos hl]
      have hrest : rest.filter (fun x => x.event == e && x.cb == c) = [] := by
        rw [@List.filter_cons_of_pos _ (fun x => x.event == e && x.cb == c) l rest hl] at h
        rw [List.length_cons] at h
        exact List.length_eq_zero.mp (Nat.le_zero.mp (by omega))
      rw [@List.filter_cons_of_neg _ (fun x => !(x.event == e && x.cb == c)) l rest (by simp [hl])]
      exact (filterNotAll _ _ (filterLenZero _ _ hrest)).symm
    · rw [removeFirst, if_neg hl]
      rw [@List.filter_cons_of_neg _ (fun x => x.event == e && x.cb == c) l rest hl] at h
      rw [@List.filter_cons_of_pos _ (fun x => !(x.event == e && x.cb == c)) l rest
        (by simp [Bool.eq_false_iff.mpr hl])]
      rw [ih h]

/-- Removing a registration that is not present leaves the list unchanged. -/
theorem removeFirst_noMatch (L : List Listener) (e : String) (c : Nat)
    (h : ∀ l ∈ L, (l.event == e && l.cb == c) = false) : removeFirst L e c = L := by
  induction L with
  | nil => rfl
  | cons l rest ih =>
    rw [removeFirst, if_neg (by simp [h l (List.mem_cons_self _ _)]),
      ih (fun x hx => h x (List.mem_cons_of_mem _ hx))]

/-! ## Claim theorems -/

def pageC1 : PageState :=
  { elems := [⟨1, [("data-modal-trigger", "m1")]⟩], clickListeners := [], nextClosure := 0 }

/-- C1: the claim says a rule binds each matching element exactly once across
repeated activation passes.  The code re-queries and re-binds: on a document
with one data-modal-trigger element, the first initModals pass attaches one
click listener and a second pass attaches a second, distinct listener to the
same element, so the open-modal behavior fires twice per click. -/
theorem c1_second_activation_rebinds :
    (initModalsPass pageC1).clickListeners = [(1, 0)]
  ∧ (initModalsPass (initModalsPass pageC1)).clickListeners = [(1, 0), (1, 1)] := ⟨rfl, rfl⟩

def envC2 : Nat → List Action := fun n => if n = 0 then [Action.remove "x" 2] else []

def sC2 : BusState :=
  { listeners := [⟨0, "x", 0⟩, ⟨1, "x", 2⟩], nextReg := 2, delivered := [], reported := [] }

/-- C2 counterexample: callbacks 0 and 2 are both subscribed to event x before
the publish begins, but handler 0 unsubscribes callback 2 during the dispatch,
and the EventTarget skips a listener removed before its turn; so the event is
not delivered to every handler subscribed before the publish began. -/
theorem c2_counterexample :
    sC2.listeners.map (fun l => l.cb) = [0, 2]
  ∧ (emit envC2 sC2 "x" [] 0).delivered.map (fun x => x.1) = [0] := ⟨rfl, rfl⟩

/-- C2 (amended): provided no invoked handler unsubscribes during the
dispatch, emit delivers exactly to the handlers subscribed to the event name
before the publish began, in registration order — handlers subscribed during
the same publish are not invoked — and a subscription (busOn) by itself never
delivers anything, so a subscriber gained after a publish never observes it. -/
theorem c2_delivery_to_predispatch_subscribers (env : Nat → List Action) (s : BusState)
    (e : String) (data : Payload) (now : Int) (e0 : String) (c0 : Nat)
    (hnr : ∀ l ∈ s.listeners, l.event = e → hasRemove (env l.cb) = false) :
    (emit env s e data now).delivered
      = s.delivered
        ++ (s.listeners.filter (fun l => l.event == e)).map
            (fun l => (l.cb, e, mkDetail data now))
  ∧ (busOn s e0 c0).delivered = s.delivered := by
  constructor
  · unfold emit dispatchEvent
    apply dispatchSnapshot_delivered
    · intro l hl
      rcases List.mem_filter.mp hl with ⟨hmem, hev⟩
      exact hnr l hmem (by simpa using hev)
    · intro l hl
      exact ⟨l, (List.mem_filter.mp hl).1, rfl⟩
  · exact addEventListener_delivered s e0 c0

def envNil : Nat → List Action := fun _ => []

def sW2 : BusState :=
  { listeners := [⟨0, "x", 7⟩], nextReg := 1, delivered := [], reported := [] }

/-- Witness for C2: one pre-subscribed handler, no removals, concrete payload. -/
theorem c2_delivery_witness :
    (emit envNil sW2 "x" [("v", JVal.num 1)] 3).delivered
      = [(7, "x", [("v", JVal.num 1), ("timestamp", JVal.num 3)])] := by
  have h := c2_delivery_to_predispatch_subscribers envNil sW2 "x" [("v", JVal.num 1)] 3 "y" 9
    (by intro l hl hev; rfl)
  rw [h.1]
  rfl

def sC3 : BusState :=
  { listeners := [⟨0, "x", 5⟩, ⟨1, "x", 6⟩], nextReg := 2, delivered := [], reported := [] }

/-- C3 counterexample: on does not return a per-subscription capability; it
returns the one framework instance for chaining — the same value for two
different registrations — and the transcribed class interface has no cancel
member, so calling cancel on the returned value is a TypeError, not an
unsubscription. -/
theorem c3_counterexample :
    (onWithRet sC3 "x" 9).2 = OnResult.chainedSelf
  ∧ (onWithRet sC3 "y" 10).2 = (onWithRet sC3 "x" 9).2
  ∧ "cancel" ∉ easyCSSEnhancedMethods := ⟨rfl, rfl, by decide⟩

/-- C3 (amended): unsubscription is done by off(event, handler), not by a
capability returned from on.  For a state with at most one matching
registration (the only reachable situation, by the duplicate check), off
removes exactly that registration and no other, a second identical off call
is a no-op (and off never throws: it is total), and after off the handler
receives no delivery from a subsequent emit of that event. -/
theorem c3_off_removes_exactly (s : BusState) (e : String) (c : Nat)
    (env : Nat → List Action) (data : Payload) (now : Int)
    (h1 : (s.listeners.filter (fun l => l.event == e && l.cb == c)).length ≤ 1) :
    (busOff s e c).listeners = s.listeners.filter (fun l => !(l.event == e && l.cb == c))
  ∧ busOff (busOff s e c) e c = busOff s e c
  ∧ ∀ x ∈ (emit env (busOff s e c) e data now).delivered, x ∈ s.delivered ∨ x.1 ≠ c := by
  have ha : (busOff s e c).listeners
      = s.listeners.filter (fun l => !(l.event == e && l.cb == c)) :=
    removeFirst_eq_filter s.listeners e c h1
  have hnomatch : ∀ l ∈ (busOff s e c).listeners, (l.event == e && l.cb == c) = false := by
    intro l hl
    rw [ha] at hl
    rcases List.mem_filter.mp hl with ⟨_, hneg⟩
    cases hval : (l.event == e && l.cb == c) with
    | false => rfl
    | true =>
      rw [hval] at hneg
      exact absurd hneg (by decide)
  refine ⟨ha, ?_, ?_⟩
  · show { busOff s e c with listeners := removeFirst (busOff s e c).listeners e c }
      = busOff s e c
    rw [removeFirst_noMatch _ _ _ hnomatch]
  · intro x hx
    rcases dispatchSnapshot_cbs env e (mkDetail data now)
        ((busOff s e c).listeners.filter (fun l => l.event == e)) (busOff s e c) x hx with
      h | h
    · exact Or.inl h
    · right
      rcases List.mem_map.mp h with ⟨l, hl, hcb⟩
      rcases List.mem_filter.mp hl with ⟨hl2, hev⟩
      intro hc
      have hcbc : l.cb = c := by rw [hcb]; exact hc
      have hevP : l.event = e := by simpa using hev
      have := hnomatch l hl2
      simp [hcbc, hevP] at this

/-- Witness for C3: a two-listener state, removing one of them. -/
theorem c3_off_witness :
    (busOff sC3 "x" 5).listeners = [⟨1, "x", 6⟩]
  ∧ busOff (busOff sC3 "x" 5) "x" 5 = busOff sC3 "x" 5 := by
  have h := c3_off_removes_exactly sC3 "x" 5 envNil [] 0 (by decide)
  exact ⟨h.1.trans rfl, h.2.1⟩

def envC4 : Nat → List Action := fun n => if n = 11 then [Action.throwErr] else []

def sC4 (e : String) : BusState :=
  { listeners := [⟨0, e, 10⟩, ⟨1, e, 11⟩, ⟨2, e, 12⟩], nextReg := 3
  , delivered := [], reported := [] }

/-- C4: with handlers A, B, C subscribed in this order and B throwing, a
dispatch still delivers the event to all three in order — the EventTarget
reports the listener exception instead of propagating it — so A and C both
observe the event and the failure lands in the report log, not swallowed. -/
theorem c4_throwing_handler_isolated_and_reported (e : String) (data : Payload) (now : Int) :
    (emit envC4 (sC4 e) e data now).delivered
      = [(10, e, mkDetail data now), (11, e, mkDetail data now), (12, e, mkDetail data now)]
  ∧ (emit envC4 (sC4 e) e data now).reported = [11] := by
  constructor <;>
    simp [emit, dispatchEvent, sC4, dispatchSnapshot, runHandler, runActions, envC4,
      addEventListener, removeEventListener]

def bindThrowOn1 : Nat → Except String Unit :=
  fun n => if n = 1 then Except.error "TypeError" else Except.ok ()

/-- C5 counterexample: in a pass over elements 2, 1, 3 where the bind body
throws on element 1, element 3 is never bound and the exception propagates
out of the pass (no per-element catch exists in the source), contradicting
the claimed catch-log-continue policy. -/
theorem c5_counterexample :
    bindPass bindThrowOn1 [2, 1, 3] = ([2], some "TypeError")
  ∧ (3 : Nat) ∉ (bindPass bindThrowOn1 [2, 1, 3]).1 := ⟨rfl, by decide⟩

/-- C5 (amended): a bind callback that throws on one matched element aborts
the binding of every remaining matched element of that pass: exactly the
elements before the throwing one are bound and the error propagates to the
caller of the pass. -/
theorem c5_throwing_bind_aborts_pass (bind : Nat → Except String Unit) (msg : String)
    (xs : List Nat) (y : Nat) (zs : List Nat)
    (hok : ∀ x ∈ xs, bind x = Except.ok ()) (hy : bind y = Except.error msg) :
    bindPass bind (xs ++ y :: zs) = (xs, some msg) := by
  induction xs with
  | nil =>
    simp only [List.nil_append]
    rw [bindPass, hy]
  | cons a rest ih =>
    have ha := hok a (List.mem_cons_self _ _)
    rw [List.cons_append, bindPass, ha, ih (fun x hx => hok x (List.mem_cons_of_mem _ hx))]

/-- Witness for C5: the concrete aborted pass. -/
theorem c5_abort_witness :
    bindPass bindThrowOn1 ([2] ++ 1 :: [3]) = ([2], some "TypeError") :=
  c5_throwing_bind_aborts_pass bindThrowOn1 "TypeError" [2] 1 [3]
    (by intro x hx; rw [List.mem_singleton.mp hx]; rfl) rfl

/-- C6: openModal with an unmatched modal id and a dropdown missing its
trigger or menu indeed no-op, but the navbar toggle click handler evaluated
on a toggle with no .navbar ancestor throws a TypeError instead of no-opping,
because the null result of closest is dereferenced unguarded — while the
same handler does guard the missing .navbar-nav child. -/
theorem c6_navbar_toggle_throws_outside_navbar :
    navbarToggleClick none = Except.error "TypeError"
  ∧ navbarToggleClick (some ⟨false, false⟩) = Except.ok NavToggleOutcome.noop
  ∧ openModal [⟨1, [("data-modal", "m1")]⟩] "missing" = none
  ∧ initDropdownOne false true = false := ⟨rfl, rfl, rfl, rfl⟩

def dataC7 : Payload := [("v", JVal.num 1), ("timestamp", JVal.num 5)]

def sC7 : BusState :=
  { listeners := [⟨0, "x", 3⟩], nextReg := 1, delivered := [], reported := [] }

/-- C7 counterexample: with a caller payload that already has a timestamp key
of value 5, the delivered detail carries the dispatch-generated timestamp 7
instead, so not every key of the caller payload arrives with its value. -/
theorem c7_counterexample :
    (emit envNil sC7 "x" dataC7 7).delivered
      = [(3, "x", [("v", JVal.num 1), ("timestamp", JVal.num 7)])]
  ∧ lookupAssoc dataC7 "timestamp" = some (JVal.num 5)
  ∧ JVal.num 7 ≠ JVal.num 5 := ⟨rfl, rfl, by decide⟩

/-- C7 (amended): every key of the caller payload other than timestamp is
present in the delivered detail with its value, and the detail additionally
carries the numeric timestamp generated at dispatch, which overwrites any
caller-supplied timestamp key. -/
theorem c7_payload_passthrough (data : Payload) (now : Int) (k : String) (v : JVal)
    (hk : k ≠ "timestamp") (hv : lookupAssoc data k = some v) :
    lookupAssoc (mkDetail data now) k = some v
  ∧ lookupAssoc (mkDetail data now) "timestamp" = some (JVal.num now) :=
  ⟨(mkDetail_other data now k hk).trans hv, mkDetail_timestamp data now⟩

/-- Witness for C7: a one-key payload delivered with its key and a timestamp. -/
theorem c7_payload_witness :
    lookupAssoc (mkDetail [("v", JVal.num 1)] 7) "v" = some (JVal.num 1)
  ∧ lookupAssoc (mkDetail [("v", JVal.num 1)] 7) "timestamp" = some (JVal.num 7) :=
  c7_payload_passthrough [("v", JVal.num 1)] 7 "v" (JVal.num 1) (by decide) rfl

/-- C8: showToast applies the documented defaults — type info, duration 5000,
persistent false, with the default configuration auto-dismissed after 5000 —
a persistent toast schedules no auto-dismiss whatever its duration, and a
non-persistent toast with positive duration d is auto-dismissed after d. -/
theorem c8_toast_defaults (ty ti me : Option String) (du : Option Int) (d : Int)
    (hd : 0 < d) :
    showToast true { title? := ti, message? := me }
      = some { toastType := "info", autoDismissAfter := some 5000 }
  ∧ showToast true
      { type? := ty, title? := ti, message? := me, duration? := du, persistent? := some true }
      = some { toastType := ty.getD "info", autoDismissAfter := none }
  ∧ showToast true
      { type? := ty, title? := ti, message? := me, duration? := some d
      , persistent? := some false }
      = some { toastType := ty.getD "info", autoDismissAfter := some d } := by
  refine ⟨rfl, ?_, ?_⟩
  · simp [showToast]
  · simp [showToast, hd]

/-- Witness for C8: concrete configurations. -/
theorem c8_toast_witness :
    showToast true { title? := some "t", message? := some "m" }
      = some { toastType := "info", autoDismissAfter := some 5000 }
  ∧ showToast true
      { type? := some "danger", title? := some "t", message? := some "m"
      , duration? := some 9, persistent? := some true }
      = some { toastType := "danger", autoDismissAfter := none }
  ∧ showToast true
      { type? := some "danger", title? := some "t", message? := some "m"
      , duration? := some 9, persistent? := some false }
      = some { toastType := "danger", autoDismissAfter := some 9 } :=
  c8_toast_defaults (some "danger") (some "t") (some "m") (some 9) 9 (by decide)

/-- C9 counterexample: setting the empty string as the theme preference
stores it, but the next startup observes light, because the or-else fallback
of the startup read treats the empty string like an absent key; so the
preference set before a page load is not always the theme observed after the
next startup. -/
theorem c9_counterexample :
    startupTheme (setThemeStore [] "") = "light" ∧ ("light" : String) ≠ "" :=
  ⟨rfl, by decide⟩

/-- C9 (amended): theme preference lives under the one key easycss-theme,
read at startup with fallback light when absent; setTheme writes that key,
and any nonempty theme written before a page load is exactly the theme the
next startup observes (the empty string alone falls back to light);
toggleTheme stores light or dark and round-trips likewise. -/
theorem c9_theme_roundtrip (st : Store) (theme current : String) (h : theme ≠ "") :
    startupTheme (setThemeStore st theme) = theme
  ∧ startupTheme (toggleThemeStore st current) = (if current = "dark" then "light" else "dark")
  ∧ startupTheme [] = "light" := by
  refine ⟨?_, ?_, rfl⟩
  · unfold startupTheme setThemeStore setItem getItem themeKey
    rw [lookupAssoc_setAssoc_self]
    simp [h]
  · unfold toggleThemeStore setThemeStore setItem startupTheme getItem themeKey
    rw [lookupAssoc_setAssoc_self]
    by_cases hc : current = "dark" <;> simp [hc]

/-- Witness for C9: a concrete store round trip. -/
theorem c9_theme_witness :
    startupTheme (setThemeStore [] "dark") = "dark"
  ∧ startupTheme (toggleThemeStore [] "dark") = "light" := by
  have h := c9_theme_roundtrip [] "dark" "dark" (by decide)
  exact ⟨h.1, h.2.1.trans (by decide)⟩

/-- C10: the delivered detail is the caller data with the timestamp key set
to the dispatch-generated time — overwriting a caller-supplied timestamp —
and every other key unchanged in both directions. -/
theorem c10_timestamp_overwrite (data : Payload) (now : Int) :
    lookupAssoc (mkDetail data now) "timestamp" = some (JVal.num now)
  ∧ ∀ k : String, k ≠ "timestamp" → lookupAssoc (mkDetail data now) k = lookupAssoc data k :=
  ⟨mkDetail_timestamp data now, fun k hk => mkDetail_other data now k hk⟩

/-- Witness for C10: a payload with a stale timestamp key and one other key. -/
theorem c10_timestamp_witness :
    lookupAssoc (mkDetail [("timestamp", JVal.num 5), ("a", JVal.num 2)] 9) "timestamp"
      = some (JVal.num 9)
  ∧ lookupAssoc (mkDetail [("timestamp", JVal.num 5), ("a", JVal.num 2)] 9) "a"
      = lookupAssoc [("timestamp", JVal.num 5), ("a", JVal.num 2)] "a" :=
  ⟨(c10_timestamp_overwrite [("timestamp", JVal.num 5), ("a", JVal.num 2)] 9).1,
   (c10_timestamp_overwrite [("timestamp", JVal.num 5), ("a", JVal.num 2)] 9).2 "a" (by decide)⟩

end EasyCSS
